import Mathlib

/-
Verification of the med-ed oral-presentation grader's deterministic evaluation
pipeline. Each Python function of the repository is shallowly embedded as an
executable Lean definition, keeping the source's names and control flow;
floats are modelled as rationals, Python exceptions as `Except PyError`.
-/

set_option maxHeartbeats 1000000

/-! ## shared/utils/lcs.py -/

/-- The dynamic-programming table of `longest_common_subsequence`
(shared/utils/lcs.py, lines 27-40). `lcsDp seq1 seq2 i j` is the value
`dp[i][j]`: the table is filled by
`dp[i][j] = dp[i-1][j-1] + 1` when `seq1[i-1] == seq2[j-1]`, else
`max(dp[i-1][j], dp[i][j-1])`, with the zeroth row and column 0.
Element access `seq1[i-1]` is rendered as `seq1.get? i` on the shifted index;
the top-level call only ever reaches in-range indices. -/
def lcsDp (seq1 seq2 : List String) : Nat → Nat → Nat
  | 0, _ => 0
  | _+1, 0 => 0
  | i+1, j+1 =>
    if seq1.get? i = seq2.get? j then lcsDp seq1 seq2 i j + 1
    else max (lcsDp seq1 seq2 i (j+1)) (lcsDp seq1 seq2 (i+1) j)
  termination_by i j => i + j

/-- `longest_common_subsequence` (shared/utils/lcs.py, lines 8-40): the length
of the longest common subsequence, read off as `dp[m][n]`. -/
def longest_common_subsequence (seq1 seq2 : List String) : Nat :=
  lcsDp seq1 seq2 seq1.length seq2.length

/-- `lcs_score` (shared/utils/lcs.py, lines 43-62): LCS length normalized by
the expected sequence's length, `1.0` when `expected` is empty. -/
def lcs_score (detected expected : List String) : ℚ :=
  if expected = [] then 1
  else (longest_common_subsequence detected expected : ℚ) / expected.length

/-- Backtracking pass of `get_lcs_elements` (shared/utils/lcs.py, lines 93-106).
The Python loop walks `(i, j)` down from `(m, n)`, appending `seq1[i-1]` on a
match (then decrementing both), moving up (`i -= 1`) when
`dp[i-1][j] > dp[i][j-1]`, and otherwise — including ties — moving left
(`j -= 1`); the collected list is reversed at the end. The recursion below
builds the list directly in final (reversed) order. The out-of-range arm is
unreachable from the in-range top-level call. -/
def lcsBacktrack (seq1 seq2 : List String) : Nat → Nat → List String
  | 0, _ => []
  | _+1, 0 => []
  | i+1, j+1 =>
    match seq1.get? i, seq2.get? j with
    | some a, some b =>
      if a = b then lcsBacktrack seq1 seq2 i j ++ [a]
      else if lcsDp seq1 seq2 i (j+1) > lcsDp seq1 seq2 (i+1) j then
        lcsBacktrack seq1 seq2 i (j+1)
      else lcsBacktrack seq1 seq2 (i+1) j
    | _, _ => []
  termination_by i j => i + j

/-- `get_lcs_elements` (shared/utils/lcs.py, lines 65-106): fill the DP table,
then backtrack from `(m, n)`. -/
def get_lcs_elements (seq1 seq2 : List String) : List String :=
  lcsBacktrack seq1 seq2 seq1.length seq2.length

/-- Modelled from the spec: the backtracking pass as the specification words it
("ties broken by preferring to move up — i.e., favor matches from the first
sequence"): at a non-matching cell the walk moves up whenever
`dp[i-1][j] >= dp[i][j-1]`, so in particular on ties. Used only to compare
against `lcsBacktrack`, which is translated from the source. -/
def lcsBacktrackSpecTie (seq1 seq2 : List String) : Nat → Nat → List String
  | 0, _ => []
  | _+1, 0 => []
  | i+1, j+1 =>
    match seq1.get? i, seq2.get? j with
    | some a, some b =>
      if a = b then lcsBacktrackSpecTie seq1 seq2 i j ++ [a]
      else if lcsDp seq1 seq2 i (j+1) ≥ lcsDp seq1 seq2 (i+1) j then
        lcsBacktrackSpecTie seq1 seq2 i (j+1)
      else lcsBacktrackSpecTie seq1 seq2 (i+1) j
    | _, _ => []
  termination_by i j => i + j

/-- Modelled from the spec: `get_lcs_elements` under the spec's tie-breaking
rule (move up on ties). -/
def get_lcs_elements_spec_tie (seq1 seq2 : List String) : List String :=
  lcsBacktrackSpecTie seq1 seq2 seq1.length seq2.length

/-- Proof-side reformulation of the LCS recurrence, structural on the two lists
(consuming from the front). `lcsDp s1 s2 i j` equals `lcsFront` applied to the
reversed `i`- and `j`-prefixes; all algebraic properties are proved for
`lcsFront` and transported. -/
def lcsFront : List String → List String → Nat
  | [], _ => 0
  | _ :: _, [] => 0
  | a :: as, b :: bs =>
    if a = b then lcsFront as bs + 1
    else max (lcsFront as (b :: bs)) (lcsFront (a :: as) bs)
  termination_by l1 l2 => l1.length + l2.length

/-! ## Python string helpers

Python's `needle in haystack` substring test, `str.lower`, `str.upper`,
`str.replace` and `str.split(sep)` used by the evaluators. -/

/-- Python `pat in s` on character lists: `pat` occurs contiguously in `s`. -/
def containsSub (pat : List Char) : List Char → Bool
  | [] => pat.isEmpty
  | c :: rest => pat.isPrefixOf (c :: rest) || containsSub pat rest

/-- Python `pat in s` for strings. -/
def strContains (s pat : String) : Bool :=
  containsSub pat.toList s.toList

/-- Python `str.lower()` (ASCII case mapping, all inputs here are ASCII). -/
def strLower (s : String) : String := ⟨s.toList.map Char.toLower⟩

/-- Python `str.upper()` (ASCII case mapping, all inputs here are ASCII). -/
def strUpper (s : String) : String := ⟨s.toList.map Char.toUpper⟩

/-! ## shared/models: transcript and evaluation data model

`Utterance`, `TranscriptSection`, `SegmentedTranscript`
(shared/models/transcript.py) and `Violation`, `Success`
(shared/models/evaluation.py). The `speaker` field is the pydantic
`Literal["student", "patient", "system"]`. -/

inductive Speaker
  | student
  | patient
  | system
deriving DecidableEq, Repr

/-- `Utterance` (shared/models/transcript.py, lines 7-13). -/
structure Utterance where
  speaker : Speaker
  text : String
  timestamp_start : String
  timestamp_end : String
deriving DecidableEq, Repr

/-- `TranscriptSection` (shared/models/transcript.py, lines 31-37). -/
structure TranscriptSection where
  label : String
  utterances : List Utterance
  timestamp_start : String
  timestamp_end : String
deriving DecidableEq, Repr

/-- `SegmentedTranscript` (shared/models/transcript.py, lines 60-65). -/
structure SegmentedTranscript where
  transcript_id : String
  sections : List TranscriptSection
  detected_order : List String
deriving DecidableEq, Repr

/-- Violation severity, the pydantic `Literal["critical", "major", "minor"]`. -/
inductive Severity
  | critical
  | major
  | minor
deriving DecidableEq, Repr

/-- `Violation` (shared/models/evaluation.py, lines 8-18). -/
structure Violation where
  description : String
  rubric_citations : List String
  student_citations : List String
  severity : Severity
deriving DecidableEq, Repr

/-- `Success` (shared/models/evaluation.py, lines 21-30). -/
structure Success where
  description : String
  rubric_citations : List String
  student_citations : List String
deriving DecidableEq, Repr

/-! ## shared/models/rubric.py: structure configuration -/

/-- `Penalty` (shared/models/rubric.py, lines 34-48): `value` is validated
non-positive. -/
structure Penalty where
  id : String
  anchor : String
  description : String
  value : ℚ
deriving DecidableEq, Repr

/-- `StructureConfig` (shared/models/rubric.py, lines 51-64). -/
structure StructureConfig where
  anchor : String
  expected_order : List String
  penalties : List Penalty
deriving DecidableEq, Repr

/-- Entry of `penalties_applied` (structure_evaluator/app/evaluator.py,
lines 68-72): the Python code appends a dict with keys `id`, `value`,
`description`. -/
structure PenaltyApplied where
  id : String
  value : ℚ
  description : String
deriving DecidableEq, Repr

/-- `StructureEvaluation` (shared/models/evaluation.py, lines 41-47). -/
structure StructureEvaluation where
  score : ℚ
  lcs_score : ℚ
  penalties_applied : List PenaltyApplied
  detected_order : List String
  expected_order : List String
  violations : List Violation
  successes : List Success
deriving DecidableEq, Repr

/-! ## services/structure_evaluator/app/evaluator.py -/

namespace StructureEvaluator

/-- `StructureEvaluator._check_penalty` (evaluator.py, lines 136-186).
A `missing_<section>` rule fires when `<SECTION>` is absent from
`detected_order`; failing that, a `swap_<s2>_before_<s1>` rule fires when both
sections are detected and `<S2>` is listed before `<S1>`. Both markers are
tested by substring containment (`"missing_" in penalty.id`), as in the
source; `str.replace` removes every occurrence of the marker and
`list.index` is the first index. -/
def check_penalty (rubric_id : String) (penalty : Penalty)
    (detected_order : List String) : Option Violation :=
  if strContains penalty.id "missing_" ∧
      strUpper (penalty.id.replace "missing_" "") ∉ detected_order then
    some { description := penalty.description
           rubric_citations := ["rubric://" ++ rubric_id ++ penalty.anchor]
           student_citations := []
           severity := .major }
  else
    let parts := (penalty.id.replace "swap_" "").splitOn "_before_"
    if strContains penalty.id "swap_" ∧ parts.length = 2 then
      let section1 := strUpper (parts.getD 1 "")
      let section2 := strUpper (parts.getD 0 "")
      if section1 ∈ detected_order ∧ section2 ∈ detected_order ∧
          detected_order.indexOf section2 < detected_order.indexOf section1 then
        some { description := penalty.description
               rubric_citations := ["rubric://" ++ rubric_id ++ penalty.anchor]
               student_citations := []
               severity := .major }
      else none
    else none

/-- First-occurrence deduplication, used to render Python's
`set(expected_order) - set(detected_order)` as a deterministic list. -/
def uniqueInOrder (l : List String) : List String :=
  l.foldl (fun acc s => if s ∈ acc then acc else acc ++ [s]) []

/-- The dict comprehension `expected_positions = {section: i for i, section in
enumerate(expected_order)}` (evaluator.py, line 208): a later duplicate
overwrites an earlier one, so lookup returns the last index. -/
def expectedPositions (expected_order : List String) (s : String) : Option Nat :=
  expected_order.enum.foldl (fun acc p => if p.2 = s then some p.1 else acc) none

/-- `StructureEvaluator._detect_out_of_order` (evaluator.py, lines 188-223):
for each adjacent pair `(section1, section2)` of `detected_order` whose
expected positions are both defined and inverted, record
`(section2, section1)`. -/
def detect_out_of_order (detected_order expected_order : List String) :
    List (String × String) :=
  (List.range (detected_order.length - 1)).filterMap fun i =>
    match detected_order.get? i, detected_order.get? (i + 1) with
    | some section1, some section2 =>
      match expectedPositions expected_order section1,
            expectedPositions expected_order section2 with
      | some p1, some p2 => if p1 > p2 then some (section2, section1) else none
      | _, _ => none
    | _, _ => none

/-- `StructureEvaluator.evaluate` (evaluator.py, lines 27-134). The Python
`missing_sections = set(expected_order) - set(detected_order)` is embedded as
the deduplicated filter of `expected_order`; CPython iterates a set in an
unspecified (hash-dependent) order, and every property proved below is
insensitive to the iteration order. Violations are accumulated in source
order: penalty violations, then missing-section violations, then
out-of-order violations. -/
def evaluate (rubric_id : String) (structure_config : StructureConfig)
    (segmented_transcript : SegmentedTranscript) : StructureEvaluation :=
  let expected_order := structure_config.expected_order
  let detected_order := segmented_transcript.detected_order
  let lcs_length := longest_common_subsequence detected_order expected_order
  let lcsScore : ℚ :=
    if expected_order = [] then 1 else (lcs_length : ℚ) / expected_order.length
  let lcs_elements := get_lcs_elements detected_order expected_order
  let penaltyHits := structure_config.penalties.filterMap fun p =>
    (check_penalty rubric_id p detected_order).map fun v => (p, v)
  let penaltyViolations := penaltyHits.map (·.2)
  let penalties_applied := penaltyHits.map fun pv =>
    PenaltyApplied.mk pv.1.id pv.1.value pv.1.description
  let total_penalty : ℚ := (penaltyHits.map (·.1.value)).sum
  let successes :=
    if lcs_elements ≠ [] then
      [Success.mk
        ("Correctly ordered sections: " ++ String.intercalate ", " lcs_elements)
        ["rubric://" ++ rubric_id ++ structure_config.anchor] []]
    else []
  let missing_sections :=
    uniqueInOrder (expected_order.filter (fun s => s ∉ detected_order))
  let missingViolations := missing_sections.filterMap fun s =>
    if structure_config.penalties.any
        (fun p => strContains p.id ("missing_" ++ strLower s)) then none
    else some { description := "Missing " ++ s ++ " section"
                rubric_citations :=
                  ["rubric://" ++ rubric_id ++ structure_config.anchor]
                student_citations := []
                severity := .major }
  let out_of_order := detect_out_of_order detected_order expected_order
  let swapViolations := out_of_order.filterMap fun pair =>
    let section1 := pair.1
    let section2 := pair.2
    if structure_config.penalties.any
        (fun p => strContains p.id
          ("swap_" ++ strLower section2 ++ "_before_" ++ strLower section1)) then
      none
    else some { description := section2 ++ " appears before " ++ section1 ++
                  " (expected order: " ++ section1 ++ " → " ++ section2 ++ ")"
                rubric_citations :=
                  ["rubric://" ++ rubric_id ++ structure_config.anchor]
                student_citations := []
                severity := .minor }
  let final_score : ℚ := max 0 (min 1 (lcsScore + total_penalty))
  { score := final_score
    lcs_score := lcsScore
    penalties_applied := penalties_applied
    detected_order := detected_order
    expected_order := expected_order
    violations := penaltyViolations ++ missingViolations ++ swapViolations
    successes := successes }

end StructureEvaluator

/-! ## services/scoring/app/main.py -/

/-- `RubricWeights` (shared/models/rubric.py, lines 8-31): five weights in
`[0, 1]`, validated at model-construction time to sum to `1.0 ± 0.001`. -/
structure RubricWeights where
  «structure» : ℚ
  key_questions : ℚ
  reasoning : ℚ
  summary : ℚ
  communication : ℚ
deriving DecidableEq, Repr

/-- `ComponentScores` (shared/models/grading.py, lines 8-15). -/
structure ComponentScores where
  «structure» : ℚ
  key_questions : ℚ
  reasoning : ℚ
  summary : ℚ
  communication : ℚ
deriving DecidableEq, Repr

/-- `ScoreBreakdown` (shared/models/grading.py, lines 18-23). -/
structure ScoreBreakdown where
  score : ℚ
  weight : ℚ
  contribution : ℚ
deriving DecidableEq, Repr

/-- `ComputeScoreResponse` (services/scoring/app/main.py, lines 28-31): the
`breakdown` dict is embedded as an association list in Python insertion
order (CPython dicts preserve it). -/
structure ComputeScoreResponse where
  overall_score : ℚ
  breakdown : List (String × ScoreBreakdown)
deriving DecidableEq, Repr

/-- `compute_score` (services/scoring/app/main.py, lines 41-104): the
breakdown always receives `structure`, `key_questions`, `reasoning` and
`summary` entries; `communication` is added only when its weight is strictly
positive. The overall score is the sum of the recorded contributions, clamped
to `[0, 1]`. -/
def compute_score (rubric_weights : RubricWeights)
    (component_scores : ComponentScores) : ComputeScoreResponse :=
  let weights := rubric_weights
  let scores := component_scores
  let breakdown : List (String × ScoreBreakdown) :=
    [("structure",
       ⟨scores.«structure», weights.«structure»,
        weights.«structure» * scores.«structure»⟩),
     ("key_questions",
       ⟨scores.key_questions, weights.key_questions,
        weights.key_questions * scores.key_questions⟩),
     ("reasoning",
       ⟨scores.reasoning, weights.reasoning,
        weights.reasoning * scores.reasoning⟩),
     ("summary",
       ⟨scores.summary, weights.summary, weights.summary * scores.summary⟩)]
    ++ (if weights.communication > 0 then
          [("communication",
             ⟨scores.communication, weights.communication,
              weights.communication * scores.communication⟩)]
        else [])
  let overall := (breakdown.map (fun b => b.2.contribution)).sum
  let overall_score := max 0 (min 1 overall)
  ⟨overall_score, breakdown⟩

/-! ## shared/utils/tokenizer.py

`count_tokens_advanced` counts the matches of the regular expression
`\b[\w]+-[\w]+(?:-[\w]+)*\b|\b\w+'\w+\b|\b\w+\b` in `text.lower()`:
a token is a word-character run, extended over single hyphens joining further
runs (first alternative), or over a single apostrophe joining exactly one
further run (second alternative). The scanner below reproduces `re.findall`
with this pattern; `\w` is the word-character class (letters, digits,
underscore — all inputs here are ASCII). -/

/-- Membership in the regex class `\w` (ASCII range). -/
def isWordChar (c : Char) : Bool := c.isAlphanum || c = '_'

/-- Skip the maximal leading `\w+` run. -/
def dropWord : List Char → List Char
  | [] => []
  | c :: cs => if isWordChar c then dropWord cs else c :: cs

theorem dropWord_length_le : ∀ l : List Char, (dropWord l).length ≤ l.length
  | [] => le_refl _
  | c :: cs => by
    unfold dropWord
    split
    · exact le_trans (dropWord_length_le cs) (Nat.le_succ _)
    · exact le_refl _

/-- Consume the `(?:-[\w]+)*`-style continuation: as long as the rest starts
with a hyphen followed by a word character, consume the hyphen and the
following `\w+` run. -/
def hyphenChain : List Char → List Char
  | '-' :: d :: ds =>
    if h : isWordChar d then hyphenChain (dropWord (d :: ds))
    else '-' :: d :: ds
  | l => l
  termination_by l => l.length
  decreasing_by
    simp only [List.length_cons]
    have := dropWord_length_le (d :: ds)
    simp only [List.length_cons] at this
    omega

theorem hyphenChain_length_le : ∀ l : List Char, (hyphenChain l).length ≤ l.length := by
  intro l
  induction l using hyphenChain.induct with
  | case1 d ds h ih =>
    rw [hyphenChain]
    simp only [h, dite_true]
    have := dropWord_length_le (d :: ds)
    simp only [List.length_cons] at *
    omega
  | case2 d ds h =>
    rw [hyphenChain]
    simp [h]
  | case3 l h =>
    rw [hyphenChain.eq_def]
    split
    · rename_i d ds
      exact absurd rfl (h d ds)
    · exact le_refl _

/-- Where scanning resumes after a match that started with a maximal `\w+`
run whose remainder is `rest`: if `rest` begins with `-` and a word
character, the first (hyphenated) alternative extends the match over the
hyphen chain; if it begins with `'` and a word character, the second
(contraction) alternative extends it over the apostrophe and exactly one
further `\w+` run; otherwise the run alone was the match and scanning
resumes at `rest`. -/
def afterToken (rest : List Char) : List Char :=
  match rest with
  | '-' :: d :: _ => if isWordChar d then hyphenChain rest else rest
  | '\'' :: d :: ds => if isWordChar d then dropWord (d :: ds) else rest
  | _ => rest

theorem afterToken_length_le (rest : List Char) :
    (afterToken rest).length ≤ rest.length := by
  unfold afterToken
  split
  · split
    · exact hyphenChain_length_le _
    · exact le_refl _
  · rename_i d ds
    split
    · have := dropWord_length_le (d :: ds)
      simp only [List.length_cons] at *
      omega
    · exact le_refl _
  · exact le_refl _

theorem scanTokens_dec (cs : List Char) :
    (afterToken (dropWord cs)).length < cs.length + 1 := by
  have h1 := afterToken_length_le (dropWord cs)
  have h2 := dropWord_length_le cs
  omega

/-- Scan `re.findall` of the token pattern over a character list, returning
the number of matches. Non-word characters are skipped; at each word
character the maximal `\w+` run is taken, the match is extended per
`afterToken`, and scanning resumes after it. -/
def scanTokens (l : List Char) : Nat :=
  match l with
  | [] => 0
  | c :: cs =>
    if isWordChar c then 1 + scanTokens (afterToken (dropWord cs))
    else scanTokens cs
  termination_by l.length
  decreasing_by
    · simp only [List.length_cons]
      exact scanTokens_dec _
    · simp only [List.length_cons]
      omega

/-- `count_tokens_advanced` (shared/utils/tokenizer.py, lines 37-63). -/
def count_tokens_advanced (text : String) : Nat :=
  scanTokens (strLower text).toList

/-! ## services/summary_evaluator/app/evaluator.py and its rubric models -/

/-- Python exception kinds raised by the embedded code. -/
inductive PyError
  | attributeError
  | typeError
  | validationError
deriving DecidableEq, Repr

/-- `SummaryElement` (shared/models/rubric.py, lines 143-157): the detection
`pattern` is optional (`str | None = None`). The model declares no
`is_critical` field. -/
structure SummaryElement where
  id : String
  anchor : String
  description : String
  pattern : Option String
deriving DecidableEq, Repr

/-- `SummaryConfig` (shared/models/rubric.py, lines 160-174): fields `anchor`,
`max_tokens` (validated into `[40, 120]`), `overflow_divisor`,
`required_elements`. The model declares no `min_tokens` field. -/
structure SummaryConfig where
  anchor : String
  max_tokens : Nat
  overflow_divisor : Nat
  required_elements : List SummaryElement
deriving DecidableEq, Repr

/-- Python attribute access `summary_config.min_tokens`
(summary_evaluator/app/evaluator.py, line 143): `SummaryConfig` declares no
field named `min_tokens`, so pydantic raises `AttributeError`. -/
def SummaryConfig.getAttr_min_tokens (_ : SummaryConfig) : Except PyError Nat :=
  .error .attributeError

/-- Python attribute access `element.is_critical`
(summary_evaluator/app/evaluator.py, line 172): `SummaryElement` declares no
field named `is_critical`, so pydantic raises `AttributeError`. -/
def SummaryElement.getAttr_is_critical (_ : SummaryElement) : Except PyError Bool :=
  .error .attributeError

/-- Interface of Python's `re` module as used by `_detect_element`:
`re.compile(p)` succeeds exactly on the patterns `compiles` accepts and
raises `re.error` otherwise; a successfully compiled pattern searched
case-insensitively over a text is abstracted as `search p text`. The
evaluator is parametric in this engine just as the source is in the `re`
module; no claim depends on the matching semantics of a particular valid
pattern. -/
structure RegexEngine where
  compiles : String → Bool
  search : String → String → Bool

namespace SummaryEvaluator

/-- `SummaryEvaluator._get_summary_text` (evaluator.py, lines 43-60): the
student utterances of the first section labeled `Summary`, joined by single
spaces; the empty string when there is no such section. -/
def get_summary_text (segmented_transcript : SegmentedTranscript) : String :=
  match segmented_transcript.sections.find? (fun s => s.label == "Summary") with
  | some sec =>
    String.intercalate " "
      ((sec.utterances.filter (fun u => u.speaker == Speaker.student)).map (·.text))
  | none => ""

/-- `SummaryEvaluator._compute_succinct_score` (evaluator.py, lines 62-94),
with the source's argument order `(token_count, max_tokens, min_tokens)` and
`min_tokens` defaulting to 40: `token_count / min_tokens` below `min_tokens`,
`1.0` up to `max_tokens`, and `max(0, 1 - (token_count - max_tokens) /
max_tokens)` beyond. -/
def compute_succinct_score (token_count : Nat) (max_tokens : Nat)
    (min_tokens : Nat := 40) : ℚ :=
  if token_count < min_tokens then (token_count : ℚ) / min_tokens
  else if token_count ≤ max_tokens then 1
  else
    let excess : ℚ := (token_count : ℚ) - max_tokens
    let penalty := excess / max_tokens
    max 0 (1 - penalty)

/-- `SummaryEvaluator._detect_element` (evaluator.py, lines 96-116). When the
element has a pattern, `re.compile` is attempted: an uncompilable pattern
raises `re.error`, which the `except re.error` clause converts to `False`
(never detected). When the element's `pattern` is `None`, however,
`re.compile(None)` raises `TypeError`, which `except re.error` does not
catch: the call fails instead of reporting the element missing. -/
def detect_element (re : RegexEngine) (element : SummaryElement)
    (summary_text : String) : Except PyError Bool :=
  match element.pattern with
  | none => .error .typeError
  | some p => if re.compiles p then .ok (re.search p summary_text) else .ok false

/-- `SummaryEvaluation` (shared/models/evaluation.py, lines 80-88). -/
structure SummaryEvaluation where
  score : ℚ
  violations : List Violation
  successes : List Success
  token_count : Nat
  max_tokens : Nat
  succinct_score : ℚ
  elements_score : ℚ
  matched_elements : List String
  missing_elements : List String
deriving DecidableEq, Repr

/-- Accumulator of the required-element loop of `evaluate` (evaluator.py,
lines 147-173): matched ids, missing ids, violations, successes, in
append order. -/
structure ElemAcc where
  matched_elements : List String
  missing_elements : List String
  violations : List Violation
  successes : List Success

/-- `SummaryEvaluator.evaluate` (evaluator.py, lines 118-212). The summary
text and token count are computed first; the succinctness call then reads
`summary_config.min_tokens`, which raises `AttributeError` for every input
(the field does not exist), so the remainder of the body — element
detection, the elements score, the token-bound violations and the combined
score — is unreachable. It is embedded nonetheless, faithfully to the
source. -/
def evaluate (re : RegexEngine) (rubric_id : String)
    (summary_config : SummaryConfig)
    (segmented_transcript : SegmentedTranscript) :
    Except PyError SummaryEvaluation := do
  let summary_text := get_summary_text segmented_transcript
  let token_count := count_tokens_advanced summary_text
  let min_tokens ← summary_config.getAttr_min_tokens
  let succinct_score :=
    compute_succinct_score token_count summary_config.max_tokens min_tokens
  let acc ← summary_config.required_elements.foldlM
    (fun (acc : ElemAcc) element => do
      let detected ← detect_element re element summary_text
      if detected then
        let rubric_citation :=
          "rubric://" ++ rubric_id ++ "#" ++ element.anchor
        pure { acc with
               matched_elements := acc.matched_elements ++ [element.id]
               successes := acc.successes ++
                 [Success.mk
                   ("Included required element: " ++ element.description)
                   [rubric_citation]
                   ["student://summary#tokens=" ++ toString token_count]] }
      else
        let crit ← element.getAttr_is_critical
        let rubric_citation :=
          "rubric://" ++ rubric_id ++ "#" ++ element.anchor
        pure { acc with
               missing_elements := acc.missing_elements ++ [element.id]
               violations := acc.violations ++
                 [Violation.mk
                   ("Missing required element: " ++ element.description)
                   [rubric_citation] []
                   (if crit then .major else .minor)] })
    (ElemAcc.mk [] [] [] [])
  let elements_score : ℚ :=
    if summary_config.required_elements.length > 0 then
      (acc.matched_elements.length : ℚ) / summary_config.required_elements.length
    else 1
  let boundViolations :=
    if token_count > summary_config.max_tokens then
      [Violation.mk
        ("Summary too long: " ++ toString token_count ++ " tokens (max: " ++
          toString summary_config.max_tokens ++ ")")
        ["rubric://" ++ rubric_id ++ "#" ++ summary_config.anchor]
        ["student://summary#tokens=" ++ toString token_count] .minor]
    else if token_count < min_tokens then
      [Violation.mk
        ("Summary too short: " ++ toString token_count ++ " tokens (min: " ++
          toString min_tokens ++ ")")
        ["rubric://" ++ rubric_id ++ "#" ++ summary_config.anchor]
        ["student://summary#tokens=" ++ toString token_count] .minor]
    else []
  let combined_score := (1 / 2 : ℚ) * succinct_score + (1 / 2 : ℚ) * elements_score
  pure { score := combined_score
         violations := acc.violations ++ boundViolations
         successes := acc.successes
         token_count := token_count
         max_tokens := summary_config.max_tokens
         succinct_score := succinct_score
         elements_score := elements_score
         matched_elements := acc.matched_elements
         missing_elements := acc.missing_elements }

end SummaryEvaluator

/-! ## services/reasoning_evaluator/app/evaluator.py and its rubric model -/

/-- `ReasoningLink` (shared/models/rubric.py, lines 110-124): the detection
`pattern` is a required string. -/
structure ReasoningLink where
  id : String
  anchor : String
  description : String
  pattern : String
deriving DecidableEq, Repr

/-- Entry of `detected_links` (reasoning_evaluator/app/evaluator.py, lines
156-163): the Python code appends a dict with keys `link_id`, `anchor`,
`description`, `rubric_citation`, `student_citation`, `context`. -/
structure DetectedLink where
  link_id : String
  anchor : String
  description : String
  rubric_citation : String
  student_citation : String
  context : String
deriving DecidableEq, Repr

/-- Entry of `missing_links` (reasoning_evaluator/app/evaluator.py, lines
175-180): a dict with keys `link_id`, `anchor`, `description`,
`rubric_citation`. -/
structure MissingLink where
  link_id : String
  anchor : String
  description : String
  rubric_citation : String
deriving DecidableEq, Repr

/-- `ReasoningEvaluation` (shared/models/evaluation.py, lines 71-77). -/
structure ReasoningEvaluation where
  score : ℚ
  violations : List Violation
  successes : List Success
  detected_links : List DetectedLink
  missing_links : List MissingLink
  required_count : Nat
  detected_count : Nat
deriving DecidableEq, Repr

namespace ReasoningEvaluator

/-- `ReasoningEvaluator._find_pattern_in_utterances` (evaluator.py, lines
40-74), with the source's default `context_window=2`. An uncompilable
pattern raises `re.error`, caught and turned into `None`; otherwise the
first utterance whose text the pattern matches is returned together with
the joined text of the ±`context_window` surrounding utterances
(`utterances[start_idx:end_idx]` is `drop start · take (end - start)`;
`max(0, i - cw)` is natural subtraction). -/
def find_pattern_in_utterances (re : RegexEngine) (pattern : String)
    (utterances : List Utterance) (context_window : Nat := 2) :
    Option (Utterance × String) :=
  if re.compiles pattern then
    match utterances.enum.find? (fun p => re.search pattern p.2.text) with
    | some iu =>
      let start_idx := iu.1 - context_window
      let end_idx := min utterances.length (iu.1 + context_window + 1)
      let context_utterances := (utterances.drop start_idx).take (end_idx - start_idx)
      let context := String.intercalate " " (context_utterances.map (·.text))
      some (iu.2, context)
    | none => none
  else none

/-- `ReasoningEvaluator._get_student_utterances` (evaluator.py, lines
76-94): all student utterances across all sections, in order. -/
def get_student_utterances (segmented_transcript : SegmentedTranscript) :
    List Utterance :=
  segmented_transcript.sections.foldl
    (fun acc sec => acc ++ sec.utterances.filter (fun u => u.speaker == Speaker.student))
    []

/-- `ReasoningEvaluator._get_summary_utterances` (evaluator.py, lines
96-112): the student utterances of the first section labeled `Summary`,
or `[]` when there is no such section. -/
def get_summary_utterances (segmented_transcript : SegmentedTranscript) :
    List Utterance :=
  match segmented_transcript.sections.find? (fun s => s.label == "Summary") with
  | some sec => sec.utterances.filter (fun u => u.speaker == Speaker.student)
  | none => []

/-- Accumulator of the link loop of `evaluate` (evaluator.py, lines
136-188): detected links, missing links, violations, successes, in append
order. -/
structure RLAcc where
  detected_links : List DetectedLink
  missing_links : List MissingLink
  violations : List Violation
  successes : List Success

/-- One iteration of the link loop of `evaluate` (evaluator.py, lines
141-188). A found pattern appends a detected link (its context truncated to
200 characters) and a `Success` with a dual citation; an unfound or
uncompilable pattern appends a missing link and a major `Violation` citing
the rubric anchor. As in the summary evaluator, the citation prefixes the
anchor — which itself starts with `#` — with another `#`; the student
citation separator is the source file's literal bytes (a mojibake
en-dash). -/
def rlStep (re : RegexEngine) (rubric_id : String)
    (search_utterances : List Utterance) (acc : RLAcc) (link : ReasoningLink) :
    RLAcc :=
  match find_pattern_in_utterances re link.pattern search_utterances with
  | some uc =>
    let rubric_citation := "rubric://" ++ rubric_id ++ "#" ++ link.anchor
    let student_citation :=
      "student://oral#" ++ uc.1.timestamp_start ++ "â€“" ++ uc.1.timestamp_end
    { acc with
      detected_links := acc.detected_links ++
        [DetectedLink.mk link.id link.anchor link.description rubric_citation
          student_citation ⟨uc.2.toList.take 200⟩]
      successes := acc.successes ++
        [Success.mk ("Demonstrated reasoning: " ++ link.description)
          [rubric_citation] [student_citation]] }
  | none =>
    let rubric_citation := "rubric://" ++ rubric_id ++ "#" ++ link.anchor
    { acc with
      missing_links := acc.missing_links ++
        [MissingLink.mk link.id link.anchor link.description rubric_citation]
      violations := acc.violations ++
        [Violation.mk ("Missing clinical reasoning: " ++ link.description)
          [rubric_citation] [] .major] }

/-- `ReasoningEvaluator.evaluate` (evaluator.py, lines 114-207): search the
Summary section's student utterances when that section exists and is
non-empty, else all student utterances; fold the links through `rlStep`;
score is `detected_count / required_count`, `1.0` when no links are
required. -/
def evaluate (re : RegexEngine) (rubric_id : String)
    (reasoning_links : List ReasoningLink)
    (segmented_transcript : SegmentedTranscript) : ReasoningEvaluation :=
  let summary_utterances := get_summary_utterances segmented_transcript
  let all_student_utterances := get_student_utterances segmented_transcript
  let search_utterances :=
    if summary_utterances ≠ [] then summary_utterances else all_student_utterances
  let acc := reasoning_links.foldl (rlStep re rubric_id search_utterances)
    (RLAcc.mk [] [] [] [])
  let required_count := reasoning_links.length
  let detected_count := acc.detected_links.length
  let score : ℚ :=
    if required_count > 0 then (detected_count : ℚ) / required_count else 1
  ⟨score, acc.violations, acc.successes, acc.detected_links,
   acc.missing_links, required_count, detected_count⟩

end ReasoningEvaluator

/-! ## services/question_matching/app/matcher.py and its rubric models -/

/-- `KeyQuestion` (shared/models/rubric.py, lines 67-90): the criticality
field is named `critical`; the model declares no field `is_critical`. -/
structure KeyQuestion where
  id : String
  anchor : String
  label : String
  critical : Bool
  phrases : List String
deriving DecidableEq, Repr

/-- Python attribute access `question.is_critical`
(question_matching/app/matcher.py, lines 240 and 274): `KeyQuestion` declares
`critical` but no field named `is_critical`, so pydantic raises
`AttributeError`. -/
def KeyQuestion.getAttr_is_critical (_ : KeyQuestion) : Except PyError Bool :=
  .error .attributeError

/-- `QuestionMatch` (shared/models/evaluation.py, lines 50-59). -/
structure QuestionMatch where
  question_id : String
  question_anchor : String
  matched_phrase : String
  confidence : ℚ
  student_citation : String
  is_critical : Bool
  weight : ℚ
deriving DecidableEq, Repr

/-- `QuestionMatchingResult` (shared/models/evaluation.py, lines 62-68),
extending `EvaluationResult` (lines 33-38) whose `score` field is declared
required: `score: float = Field(..., ge=0, le=1)`. -/
structure QuestionMatchingResult where
  score : ℚ
  violations : List Violation
  successes : List Success
  «matches» : List QuestionMatch
  unmatched_questions : List String
  total_weight : ℚ
  matched_weight : ℚ
deriving DecidableEq, Repr

/-- pydantic construction `QuestionMatchingResult(matches=...,
unmatched_questions=.., total_weight=.., matched_weight=..)`
(question_matching/app/matcher.py, lines 282-287): the required inherited
field `score` is not supplied, so validation raises. -/
def mkQuestionMatchingResult (_ : List QuestionMatch) (_ : List String)
    (_ : ℚ) (_ : ℚ) : Except PyError QuestionMatchingResult :=
  .error .validationError

namespace QuestionMatcher

/-- Constructor arguments of `QuestionMatcher.__init__` (matcher.py, lines
43-61) with the source's defaults `bm25_weight=0.4`, `embedding_weight=0.6`,
`match_threshold=0.5`. -/
structure Config where
  bm25_weight : ℚ
  embedding_weight : ℚ
  match_threshold : ℚ
deriving DecidableEq, Repr

/-- `QuestionMatcher()` with default arguments. -/
def defaultConfig : Config := ⟨2/5, 3/5, 1/2⟩

/-- Fallback scoring shared by `_compute_bm25_score` (matcher.py, lines
94-105) and `_compute_embedding_score` (lines 143-154) when the optional
`rank_bm25` / `sentence_transformers` libraries are unavailable: per phrase,
`1.0` if any utterance contains the phrase case-insensitively, else `0.0`.
The embedding models the library-free deployment; the claims settled over
it do not depend on which scoring branch runs. -/
def substringScore (phrase : String) (utterances : List Utterance) : ℚ :=
  if utterances.any (fun u => strContains (strLower u.text) (strLower phrase))
  then 1 else 0

/-- `QuestionMatcher._find_best_match_utterance` (matcher.py, lines 178-199),
fallback branch: the first utterance containing the phrase
case-insensitively, if any. -/
def find_best_match_utterance (phrase : String) (utterances : List Utterance) :
    Option Utterance :=
  utterances.find? (fun u => strContains (strLower u.text) (strLower phrase))

/-- Accumulator of the question loop of `match_questions` (matcher.py,
lines 238-280): matches, unmatched ids, total weight, matched weight. -/
structure MatchAcc where
  «matches» : List QuestionMatch
  unmatched_questions : List String
  total_weight : ℚ
  matched_weight : ℚ

/-- `QuestionMatcher.match_questions` (matcher.py, lines 213-287). The first
statement of the loop body, `weight = 2.0 if question.is_critical else 1.0`,
reads the non-existent `is_critical` attribute and raises `AttributeError`
for every non-empty question list; with an empty list the loop is skipped and
the final `QuestionMatchingResult(...)` construction raises instead, its
required `score` field being absent. The rest of the body is embedded
faithfully although unreachable. The separator in the student citation is the
source file's literal bytes (a mojibake en-dash). -/
def match_questions (cfg : Config) (key_questions : List KeyQuestion)
    (segmented_transcript : SegmentedTranscript) :
    Except PyError QuestionMatchingResult := do
  let all_utterances := segmented_transcript.sections.foldl
    (fun acc sec => acc ++ sec.utterances.filter (fun u => u.speaker == Speaker.student))
    []
  let acc ← key_questions.foldlM
    (fun (acc : MatchAcc) question => do
      let crit ← question.getAttr_is_critical
      let weight : ℚ := if crit then 2 else 1
      let total_weight := acc.total_weight + weight
      let phrases := question.phrases
      let bm25_scores := phrases.map (fun p => substringScore p all_utterances)
      let embedding_scores := phrases.map (fun p => substringScore p all_utterances)
      let combined_scores := List.zipWith
        (fun b e => cfg.bm25_weight * b + cfg.embedding_weight * e)
        bm25_scores embedding_scores
      let max_score : ℚ :=
        match combined_scores with
        | [] => 0
        | c :: cs => cs.foldl max c
      let best_phrase_idx := combined_scores.indexOf max_score
      let best_phrase := phrases.getD best_phrase_idx ""
      if max_score ≥ cfg.match_threshold then
        let best_utterance := find_best_match_utterance best_phrase all_utterances
        let citation :=
          match best_utterance with
          | some u => "student://oral#" ++ u.timestamp_start ++ "â€“" ++ u.timestamp_end
          | none => ""
        let crit2 ← question.getAttr_is_critical
        pure { acc with
               «matches» := acc.«matches» ++
                 [QuestionMatch.mk question.id question.anchor best_phrase
                   max_score citation crit2 weight]
               total_weight := total_weight
               matched_weight := acc.matched_weight + weight }
      else
        pure { acc with
               unmatched_questions := acc.unmatched_questions ++ [question.id]
               total_weight := total_weight })
    (MatchAcc.mk [] [] 0 0)
  mkQuestionMatchingResult acc.«matches» acc.unmatched_questions
    acc.total_weight acc.matched_weight

end QuestionMatcher

/-! ## services/transcript_processing/app/parser.py: TranscriptSegmenter -/

namespace TranscriptSegmenter

/-- The apostrophe character, needed inside keyword strings. -/
def apoc : Char := '\''

/-- `TranscriptSegmenter.SECTION_KEYWORDS` (parser.py, lines 105-156), in
declaration order; CPython dicts iterate in insertion order, so
`_detect_section` tests the sections in this order. -/
def SECTION_KEYWORDS : List (String × List String) :=
  [("CC",
     ["what brings you in", "chief complaint",
      "what" ++ ⟨[apoc]⟩ ++ "s going on", "what happened", "tell me about"]),
   ("HPI",
     ["when did", "how long", "describe the", "tell me more about",
      "history of present illness"]),
   ("ROS",
     ["review of systems", "any other symptoms", "anything else bothering",
      "any fever", "any headache", "any chest pain", "any shortness of breath"]),
   ("PMH",
     ["past medical history", "any medical conditions", "any chronic conditions",
      "do you have diabetes", "do you have hypertension"]),
   ("SH",
     ["social history", "do you smoke", "do you drink",
      "what do you do for work", "who do you live with"]),
   ("FH",
     ["family history", "any family members", "does anyone in your family",
      "family medical history"]),
   ("Summary",
     ["so to summarize", "in summary", "let me summarize", "to recap",
      "so this is a"])]

/-- `TranscriptSegmenter._detect_section` (parser.py, lines 162-180): the
first section, in `SECTION_KEYWORDS` order, one of whose keywords occurs in
the lowercased utterance text. -/
def detect_section (utterance : Utterance) : Option String :=
  let text_lower := strLower utterance.text
  SECTION_KEYWORDS.findSome? fun sk =>
    if sk.2.any (fun keyword => strContains text_lower keyword) then some sk.1
    else none

/-- Loop state of `TranscriptSegmenter.segment` (parser.py, lines 197-201):
the closed sections, the currently open section label (None before any
boundary), its accumulated utterances and start timestamp, and
`detected_order`. -/
structure SegState where
  sections : List TranscriptSection
  current_section_label : Option String
  current_section_utterances : List Utterance
  current_section_start : Option String
  detected_order : List String

/-- The section-closing block of `segment` (parser.py, lines 210-217 and
233-240, identical in both places): if a section is open and non-empty,
append it to `sections` (its end timestamp being the last utterance's) and
its label to `detected_order`. The start-timestamp default is unreachable:
a set label implies a recorded start. -/
def closeCurrent (s : SegState) : SegState :=
  match s.current_section_label, s.current_section_utterances with
  | some cur, u0 :: us =>
    { s with
      sections := s.sections ++
        [TranscriptSection.mk cur (u0 :: us)
          (s.current_section_start.getD "")
          (((u0 :: us).getLast?.map (·.timestamp_end)).getD "")]
      detected_order := s.detected_order ++ [cur] }
  | _, _ => s

/-- One iteration of the utterance loop of `segment` (parser.py, lines
203-230). A student utterance whose detected label differs from the open
section's closes the current section and opens a new one seeded with the
utterance; any other utterance is appended to the open section, or dropped
when none is open. -/
def segStep (s : SegState) (utterance : Utterance) : SegState :=
  if utterance.speaker == Speaker.student then
    match detect_section utterance with
    | some detected_label =>
      if s.current_section_label ≠ some detected_label then
        let closed := closeCurrent s
        { closed with
          current_section_label := some detected_label
          current_section_utterances := [utterance]
          current_section_start := some utterance.timestamp_start }
      else if s.current_section_label.isSome then
        { s with current_section_utterances :=
            s.current_section_utterances ++ [utterance] }
      else s
    | none =>
      if s.current_section_label.isSome then
        { s with current_section_utterances :=
            s.current_section_utterances ++ [utterance] }
      else s
  else
    if s.current_section_label.isSome then
      { s with current_section_utterances :=
          s.current_section_utterances ++ [utterance] }
    else s

/-- `TranscriptSegmenter.segment` (parser.py, lines 182-246): fold the
utterances through `segStep`, close the final open section, and package the
result. -/
def segment (utterances : List Utterance) (transcript_id : String) :
    SegmentedTranscript :=
  let final := closeCurrent (utterances.foldl segStep (SegState.mk [] none [] none []))
  SegmentedTranscript.mk transcript_id final.sections final.detected_order

end TranscriptSegmenter

/-! ## services/feedback_composer/app/composer.py -/

/-- `FeedbackItem` (shared/models/grading.py, lines 26-31): the `citations`
dict with keys `rubric` and `student` is embedded as two list fields. -/
structure FeedbackItem where
  type : String
  text : String
  rubric : List String
  student : List String
deriving DecidableEq, Repr

/-- `FeedbackSection` (shared/models/grading.py, lines 34-38). -/
structure FeedbackSection where
  category : String
  items : List FeedbackItem
deriving DecidableEq, Repr

namespace FeedbackComposer

/-- `FeedbackComposer._compose_structure_feedback` (composer.py, lines
96-136): one item per violation, then one per success, each copying the
evaluation's citation lists; when there are no items at all, a single
synthetic generic-success item is emitted whose `rubric` and `student`
citation lists are both empty. -/
def compose_structure_feedback (eval_result : StructureEvaluation) :
    FeedbackSection :=
  let items :=
    eval_result.violations.map
      (fun v => FeedbackItem.mk "violation" v.description
        v.rubric_citations v.student_citations)
    ++ eval_result.successes.map
      (fun s => FeedbackItem.mk "success" s.description
        s.rubric_citations s.student_citations)
  let items :=
    if items = [] then
      [FeedbackItem.mk "success"
        "Your presentation structure was well-organized." [] []]
    else items
  FeedbackSection.mk "structure" items

end FeedbackComposer

/-! ## Concrete instances used by the theorems -/

/-- Structure config of the end-to-end example: expected order
`[CC, HPI, ROS, PMH, SH, FH, Summary]`, no penalty rules. -/
def c1_config : StructureConfig :=
  ⟨"#structure", ["CC", "HPI", "ROS", "PMH", "SH", "FH", "Summary"], []⟩

/-- Transcript of the end-to-end example: detected order `[CC, HPI, PMH, ROS]`. -/
def c1_transcript : SegmentedTranscript :=
  ⟨"t1", [], ["CC", "HPI", "PMH", "ROS"]⟩

/-- Structure evaluation of the end-to-end example. -/
def c1_eval : StructureEvaluation :=
  StructureEvaluator.evaluate "r1" c1_config c1_transcript

/-- A valid weight vector (sums to 1) whose `structure` weight is zero. -/
def c2_weights : RubricWeights := ⟨0, 1/2, 3/10, 1/5, 0⟩

/-- Component scores, all four evaluated components at 1. -/
def c2_scores : ComponentScores := ⟨1, 1, 1, 1, 0⟩

/-- A one-utterance transcript with an HPI section, for the matcher. -/
def c3_transcript : SegmentedTranscript :=
  ⟨"t3",
   [⟨"HPI", [⟨Speaker.student, "When did the pain start?", "00:01", "00:01"⟩],
     "00:01", "00:01"⟩],
   ["HPI"]⟩

/-- A single non-critical key question with one phrase. -/
def c3_question : KeyQuestion := ⟨"q1", "#q1", "Onset", false, ["when did"]⟩

/-- A concrete regex engine: every pattern except the (genuinely invalid)
`"["` compiles, and search is case-sensitive substring containment. Claims
about `_detect_element` concern only its error flow, which is independent of
the engine's matching semantics. -/
def pyRegexEngine : RegexEngine :=
  ⟨fun p => p != "[", fun p t => strContains t p⟩

/-- A structure evaluation with zero violations and zero successes. -/
def c7_empty_eval : StructureEvaluation := ⟨1, 1, [], ["CC"], ["CC"], [], []⟩

/-- A reasoning link whose pattern matches nothing in `c3_transcript`. -/
def c7_link : ReasoningLink := ⟨"l1", "#l1", "links finding to diagnosis", "pneumonia"⟩

/-- Student utterance triggering HPI ("when did"). -/
def c8_u1 : Utterance := ⟨Speaker.student, "When did the pain start?", "00:01", "00:02"⟩

/-- Student utterance triggering ROS ("any fever"). -/
def c8_u2 : Utterance := ⟨Speaker.student, "Any fever or chills?", "00:05", "00:06"⟩

/-- Student utterance triggering HPI again ("how long"). -/
def c8_u3 : Utterance := ⟨Speaker.student, "How long have you had this?", "00:09", "00:10"⟩

/-- A valid weight vector with positive communication weight. -/
def c2_weights_comm : RubricWeights := ⟨1/5, 1/5, 1/5, 1/5, 1/5⟩

/-! ## Theorems -/

/-- Every entry the scoring breakdown records has
`contribution = weight × score`. -/
theorem compute_score_contribution_mem (w : RubricWeights) (s : ComponentScores) :
    ∀ name b, (name, b) ∈ (compute_score w s).breakdown →
      b.contribution = b.weight * b.score := by
  by_cases hc : w.communication > 0 <;>
    simp [compute_score, hc] <;>
    intro name b hb <;>
    rcases hb with h | h | h | h | h <;>
    simp_all

/-- Counterexample to claim C2 as stated: with the valid weight vector
`(0, 1/2, 3/10, 1/5, 0)` the `structure` component has weight zero, yet the
breakdown still contains a `structure` entry — zero-weight components are
not omitted; only `communication` is conditional on its weight. -/
theorem C2_counterexample :
    c2_weights.«structure» = 0 ∧
    ((compute_score c2_weights c2_scores).breakdown.lookup "structure") =
      some ⟨1, 0, 0⟩ := by
  constructor
  · rfl
  · norm_num [compute_score, c2_weights, c2_scores, List.lookup]

/-- Claim C2, amended: the breakdown always contains entries for
`structure`, `key_questions`, `reasoning` and `summary` — whatever their
weights — each with `contribution = weight × score`; it contains a
`communication` entry exactly when the communication weight is strictly
positive (likewise with `contribution = weight × score`); and the overall
score is the sum of the recorded contributions clamped to `[0, 1]`. -/
theorem C2_weighted_breakdown (w : RubricWeights) (s : ComponentScores) :
    ((compute_score w s).breakdown.lookup "structure" =
      some ⟨s.«structure», w.«structure», w.«structure» * s.«structure»⟩) ∧
    ((compute_score w s).breakdown.lookup "key_questions" =
      some ⟨s.key_questions, w.key_questions, w.key_questions * s.key_questions⟩) ∧
    ((compute_score w s).breakdown.lookup "reasoning" =
      some ⟨s.reasoning, w.reasoning, w.reasoning * s.reasoning⟩) ∧
    ((compute_score w s).breakdown.lookup "summary" =
      some ⟨s.summary, w.summary, w.summary * s.summary⟩) ∧
    (((compute_score w s).breakdown.lookup "communication").isSome ↔
      w.communication > 0) ∧
    (w.communication > 0 →
      (compute_score w s).breakdown.lookup "communication" =
        some ⟨s.communication, w.communication, w.communication * s.communication⟩) ∧
    (∀ name b, (name, b) ∈ (compute_score w s).breakdown →
      b.contribution = b.weight * b.score) ∧
    ((compute_score w s).overall_score =
      max 0 (min 1 (((compute_score w s).breakdown.map
        (fun e => e.2.contribution)).sum))) := by
  refine ⟨?_, ?_, ?_, ?_, ?_, ?_, compute_score_contribution_mem w s, ?_⟩ <;>
    by_cases hc : w.communication > 0 <;>
    simp [compute_score, hc, List.lookup]

/-- Witness for the amended C2: the membership clause applied at the
zero-weight `structure` entry, and the communication clause applied at a
weight vector with positive communication weight. -/
theorem C2_weighted_breakdown_witness :
    ((⟨(1 : ℚ), 0, 0⟩ : ScoreBreakdown).contribution =
      (⟨(1 : ℚ), 0, 0⟩ : ScoreBreakdown).weight *
        (⟨(1 : ℚ), 0, 0⟩ : ScoreBreakdown).score) ∧
    ((compute_score c2_weights_comm c2_scores).breakdown.lookup "communication" =
      some ⟨0, 1/5, 1/5 * 0⟩) :=
  ⟨(C2_weighted_breakdown c2_weights c2_scores).2.2.2.2.2.2.1 "structure" ⟨1, 0, 0⟩
      (by norm_num [compute_score, c2_weights, c2_scores]),
   (C2_weighted_breakdown c2_weights_comm c2_scores).2.2.2.2.2.1
      (by norm_num [c2_weights_comm])⟩

/-- Claim C1: with expected order `[CC, HPI, ROS, PMH, SH, FH, Summary]`,
detected order `[CC, HPI, PMH, ROS]` and no penalty rules,
`StructureEvaluator.evaluate` emits exactly one minor violation — the swap
"PMH appears before ROS" — and exactly three major missing-section
violations, one each for SH, FH and Summary, and no other violations. -/
theorem C1_structure_end_to_end :
    c1_eval.violations.countP (fun v => v.severity == Severity.minor) = 1 ∧
    c1_eval.violations.countP (fun v =>
      v == ⟨"PMH appears before ROS (expected order: ROS → PMH)",
        ["rubric://r1#structure"], [], Severity.minor⟩) = 1 ∧
    c1_eval.violations.countP (fun v => v.severity == Severity.major) = 3 ∧
    c1_eval.violations.countP (fun v =>
      v == ⟨"Missing SH section", ["rubric://r1#structure"], [],
        Severity.major⟩) = 1 ∧
    c1_eval.violations.countP (fun v =>
      v == ⟨"Missing FH section", ["rubric://r1#structure"], [],
        Severity.major⟩) = 1 ∧
    c1_eval.violations.countP (fun v =>
      v == ⟨"Missing Summary section", ["rubric://r1#structure"], [],
        Severity.major⟩) = 1 ∧
    c1_eval.violations.length = 4 := by
  have h : c1_eval.violations =
      [⟨"Missing SH section", ["rubric://r1#structure"], [], .major⟩,
       ⟨"Missing FH section", ["rubric://r1#structure"], [], .major⟩,
       ⟨"Missing Summary section", ["rubric://r1#structure"], [], .major⟩,
       ⟨"PMH appears before ROS (expected order: ROS → PMH)",
        ["rubric://r1#structure"], [], .minor⟩] := by
    simp [c1_eval, c1_config, c1_transcript, StructureEvaluator.evaluate,
      StructureEvaluator.detect_out_of_order, StructureEvaluator.expectedPositions,
      StructureEvaluator.uniqueInOrder, get_lcs_elements, lcsBacktrack,
      longest_common_subsequence, lcsDp]
    decide
  rw [h]
  decide

/-- Claim C4: `SummaryEvaluator.evaluate` reads `summary_config.min_tokens`,
a field `SummaryConfig` does not define, so it raises `AttributeError` for
every configuration and every transcript; the summary component never
completes an evaluation. -/
theorem C4_summary_evaluate_always_raises
    (re : RegexEngine) (rubric_id : String) (summary_config : SummaryConfig)
    (segmented_transcript : SegmentedTranscript) :
    SummaryEvaluator.evaluate re rubric_id summary_config segmented_transcript =
      .error .attributeError := rfl

/-- Witness for C4 at a concrete configuration and transcript. -/
theorem C4_summary_evaluate_always_raises_witness :
    SummaryEvaluator.evaluate pyRegexEngine "r1" ⟨"#summary", 80, 20, []⟩
      c3_transcript = .error .attributeError :=
  C4_summary_evaluate_always_raises pyRegexEngine "r1" ⟨"#summary", 80, 20, []⟩
    c3_transcript

/-- Claim C3 (code bug): `QuestionMatcher.match_questions` never returns a
result. With a non-empty question list the loop's first statement reads
`question.is_critical`, which `KeyQuestion` does not define (its field is
`critical`), raising `AttributeError`; with an empty list the final
`QuestionMatchingResult(...)` construction omits the required inherited
`score` field and fails validation. In particular no weight, total-weight or
score computation is ever delivered. -/
theorem C3_match_questions_never_returns :
    QuestionMatcher.match_questions QuestionMatcher.defaultConfig [c3_question]
      c3_transcript = .error .attributeError ∧
    QuestionMatcher.match_questions QuestionMatcher.defaultConfig []
      c3_transcript = .error .validationError :=
  ⟨rfl, rfl⟩

/-- Claim C5: the succinctness score is `count/min` below `min`, `1` on
`[min, max]`, and `max 0 (1 - (count - max)/max)` above `max` (for a
well-formed band `min ≤ max`), with the spec's concrete values at
`min = 40, max = 80`: 20 ↦ 0.5, 60 ↦ 1, 100 ↦ 0.75, 200 ↦ 0. -/
theorem C5_succinct_score :
    (SummaryEvaluator.compute_succinct_score 20 80 40 = 1/2 ∧
     SummaryEvaluator.compute_succinct_score 60 80 40 = 1 ∧
     SummaryEvaluator.compute_succinct_score 100 80 40 = 3/4 ∧
     SummaryEvaluator.compute_succinct_score 200 80 40 = 0) ∧
    ∀ (token_count max_tokens min_tokens : ℕ),
      (token_count < min_tokens →
        SummaryEvaluator.compute_succinct_score token_count max_tokens min_tokens =
          (token_count : ℚ) / min_tokens) ∧
      (min_tokens ≤ token_count → token_count ≤ max_tokens →
        SummaryEvaluator.compute_succinct_score token_count max_tokens min_tokens = 1) ∧
      (min_tokens ≤ max_tokens → max_tokens < token_count →
        SummaryEvaluator.compute_succinct_score token_count max_tokens min_tokens =
          max 0 (1 - ((token_count : ℚ) - max_tokens) / max_tokens)) := by
  constructor
  · refine ⟨?_, ?_, ?_, ?_⟩ <;>
      norm_num [SummaryEvaluator.compute_succinct_score]
  · intro token_count max_tokens min_tokens
    refine ⟨?_, ?_, ?_⟩
    · intro h
      simp [SummaryEvaluator.compute_succinct_score, h]
    · intro h1 h2
      simp [SummaryEvaluator.compute_succinct_score, Nat.not_lt.mpr h1, h2]
    · intro h1 h2
      have hnl : ¬ token_count < min_tokens := by omega
      have hng : ¬ token_count ≤ max_tokens := by omega
      simp [SummaryEvaluator.compute_succinct_score, hnl, hng]

/-- Witness for C5: the general decay clause applied at
`count = 100, max = 80, min = 40`. -/
theorem C5_succinct_score_witness :
    SummaryEvaluator.compute_succinct_score 100 80 40 =
      max 0 (1 - ((100 : ℚ) - 80) / 80) :=
  (C5_succinct_score.2 100 80 40).2.2 (by norm_num) (by norm_num)

/-- Claim C10 (code bug): an element whose `pattern` is an uncompilable
regex is treated as never matching (`re.error` is caught and `False`
returned), but an element with no pattern at all makes `_detect_element`
raise `TypeError` — `re.compile(None)` does not raise `re.error`, so the
handler does not catch it and no missing-element violation is ever emitted
for it. -/
theorem C10_detect_element_none_pattern :
    SummaryEvaluator.detect_element pyRegexEngine
      ⟨"e1", "#e1", "assessment statement", none⟩ "some summary text" =
      .error .typeError ∧
    SummaryEvaluator.detect_element pyRegexEngine
      ⟨"e2", "#e2", "plan statement", some "["⟩ "some summary text" =
      .ok false :=
  ⟨rfl, rfl⟩

/-- Every violation `_check_penalty` returns carries exactly the penalty's
rubric citation. -/
theorem check_penalty_citations (rid : String) (p : Penalty) (d : List String)
    (v : Violation) (h : StructureEvaluator.check_penalty rid p d = some v) :
    v.rubric_citations = ["rubric://" ++ rid ++ p.anchor] := by
  unfold StructureEvaluator.check_penalty at h
  dsimp only at h
  split_ifs at h
  all_goals first
    | (injection h with h2; subst h2; rfl)
    | exact Option.noConfusion h

/-- Every violation and success the structure evaluator emits carries a
non-empty rubric-citation list. -/
theorem structure_eval_citations (rid : String) (cfg : StructureConfig)
    (st : SegmentedTranscript) :
    (∀ v ∈ (StructureEvaluator.evaluate rid cfg st).violations,
      v.rubric_citations ≠ []) ∧
    (∀ s ∈ (StructureEvaluator.evaluate rid cfg st).successes,
      s.rubric_citations ≠ []) := by
  constructor
  · intro v hv
    simp only [StructureEvaluator.evaluate, List.mem_append] at hv
    rcases hv with (hv | hv) | hv
    · simp only [List.mem_map, List.mem_filterMap] at hv
      obtain ⟨pv, ⟨p, hp, hfp⟩, rfl⟩ := hv
      rw [Option.map_eq_some'] at hfp
      obtain ⟨v2, hcp, rfl⟩ := hfp
      have hc := check_penalty_citations _ _ _ _ hcp
      simp [hc]
    · simp only [List.mem_filterMap] at hv
      obtain ⟨sctn, hs, hf⟩ := hv
      split_ifs at hf
      injection hf with h2
      subst h2
      simp
    · simp only [List.mem_filterMap] at hv
      obtain ⟨pair, hs, hf⟩ := hv
      split_ifs at hf
      injection hf with h2
      subst h2
      simp
  · intro s hs
    simp only [StructureEvaluator.evaluate] at hs
    by_cases hc : get_lcs_elements st.detected_order cfg.expected_order ≠ []
    · rw [if_pos hc] at hs
      rw [List.mem_singleton] at hs
      subst hs
      simp
    · rw [if_neg hc] at hs
      exact absurd hs (List.not_mem_nil s)

/-- One step of the reasoning-link loop preserves non-emptiness of every
emitted rubric-citation list: both the success and the violation it can
append carry a singleton citation. -/
theorem rlStep_citations (re : RegexEngine) (rid : String)
    (su : List Utterance) (acc : ReasoningEvaluator.RLAcc) (link : ReasoningLink)
    (hv : ∀ v ∈ acc.violations, v.rubric_citations ≠ [])
    (hs : ∀ s ∈ acc.successes, s.rubric_citations ≠ []) :
    (∀ v ∈ (ReasoningEvaluator.rlStep re rid su acc link).violations,
      v.rubric_citations ≠ []) ∧
    (∀ s ∈ (ReasoningEvaluator.rlStep re rid su acc link).successes,
      s.rubric_citations ≠ []) := by
  unfold ReasoningEvaluator.rlStep
  split
  · refine ⟨hv, ?_⟩
    intro s hmem
    rw [List.mem_append] at hmem
    rcases hmem with hmem | hmem
    · exact hs s hmem
    · rw [List.mem_singleton] at hmem
      subst hmem
      simp
  · refine ⟨?_, hs⟩
    intro v hmem
    rw [List.mem_append] at hmem
    rcases hmem with hmem | hmem
    · exact hv v hmem
    · rw [List.mem_singleton] at hmem
      subst hmem
      simp

/-- The reasoning-link fold preserves non-emptiness of every emitted
rubric-citation list. -/
theorem rl_foldl_citations (re : RegexEngine) (rid : String)
    (su : List Utterance) :
    ∀ (links : List ReasoningLink) (acc : ReasoningEvaluator.RLAcc),
      (∀ v ∈ acc.violations, v.rubric_citations ≠ []) →
      (∀ s ∈ acc.successes, s.rubric_citations ≠ []) →
      (∀ v ∈ (links.foldl (ReasoningEvaluator.rlStep re rid su) acc).violations,
        v.rubric_citations ≠ []) ∧
      (∀ s ∈ (links.foldl (ReasoningEvaluator.rlStep re rid su) acc).successes,
        s.rubric_citations ≠ [])
  | [], _, hv, hs => ⟨hv, hs⟩
  | link :: links, acc, hv, hs =>
    rl_foldl_citations re rid su links _
      (rlStep_citations re rid su acc link hv hs).1
      (rlStep_citations re rid su acc link hv hs).2

/-- Every violation and success the reasoning evaluator emits carries a
non-empty rubric-citation list. -/
theorem reasoning_eval_citations (re : RegexEngine) (rid : String)
    (links : List ReasoningLink) (st : SegmentedTranscript) :
    (∀ v ∈ (ReasoningEvaluator.evaluate re rid links st).violations,
      v.rubric_citations ≠ []) ∧
    (∀ s ∈ (ReasoningEvaluator.evaluate re rid links st).successes,
      s.rubric_citations ≠ []) := by
  unfold ReasoningEvaluator.evaluate
  exact rl_foldl_citations re rid _ links _
    (by intro v hmem; exact absurd hmem (List.not_mem_nil v))
    (by intro s hmem; exact absurd hmem (List.not_mem_nil s))

/-- Feedback items derived from violations or successes preserve their
rubric citations; the only item that can lack one is the synthetic
generic-success item. -/
theorem compose_structure_items (ev : StructureEvaluation)
    (hv : ∀ v ∈ ev.violations, v.rubric_citations ≠ [])
    (hs : ∀ s ∈ ev.successes, s.rubric_citations ≠ []) :
    ∀ item ∈ (FeedbackComposer.compose_structure_feedback ev).items,
      item.rubric ≠ [] ∨
      item = FeedbackItem.mk "success"
        "Your presentation structure was well-organized." [] [] := by
  intro item hitem
  simp only [FeedbackComposer.compose_structure_feedback] at hitem
  by_cases hempty :
      (ev.violations.map (fun v => FeedbackItem.mk "violation" v.description
          v.rubric_citations v.student_citations)
        ++ ev.successes.map (fun s => FeedbackItem.mk "success" s.description
          s.rubric_citations s.student_citations)) = []
  · rw [if_pos hempty] at hitem
    rw [List.mem_singleton] at hitem
    exact Or.inr hitem
  · rw [if_neg hempty] at hitem
    rw [List.mem_append] at hitem
    rcases hitem with hitem | hitem
    · rw [List.mem_map] at hitem
      obtain ⟨v, hvmem, rfl⟩ := hitem
      exact Or.inl (hv v hvmem)
    · rw [List.mem_map] at hitem
      obtain ⟨s, hsmem, rfl⟩ := hitem
      exact Or.inl (hs s hsmem)

/-- With zero violations and zero successes, the composed structure section
consists of exactly the synthetic item and its rubric-citation list is
empty. -/
theorem compose_structure_synthetic (ev : StructureEvaluation)
    (h1 : ev.violations = []) (h2 : ev.successes = []) :
    (FeedbackComposer.compose_structure_feedback ev).items.map (·.rubric) =
      [[]] := by
  simp [FeedbackComposer.compose_structure_feedback, h1, h2]

/-- Counterexample to claim C7 as stated: on a structure evaluation with
zero violations and zero successes the composer emits exactly one item —
the synthetic generic-success item — and its rubric-citation list is empty,
so not every emitted feedback item carries a rubric citation. -/
theorem C7_counterexample :
    (FeedbackComposer.compose_structure_feedback c7_empty_eval).items =
      [FeedbackItem.mk "success"
        "Your presentation structure was well-organized." [] []] := by
  decide

/-- Claim C7, amended: every violation and success emitted by the
evaluators — the structure evaluator and the reasoning evaluator, the only
evaluators that construct any (the question matcher constructs none, and the
summary evaluator never completes an evaluation) — carries a non-empty
rubric-citation list, and every feedback item the composer derives from a
violation or success preserves that non-empty list; the synthetic
generic-success item emitted when a component has zero violations and zero
successes, however, carries an empty rubric-citation list. -/
theorem C7_rubric_citations :
    (∀ (rid : String) (cfg : StructureConfig) (st : SegmentedTranscript),
      (∀ v ∈ (StructureEvaluator.evaluate rid cfg st).violations,
        v.rubric_citations ≠ []) ∧
      (∀ s ∈ (StructureEvaluator.evaluate rid cfg st).successes,
        s.rubric_citations ≠ [])) ∧
    (∀ (re : RegexEngine) (rid : String) (links : List ReasoningLink)
      (st : SegmentedTranscript),
      (∀ v ∈ (ReasoningEvaluator.evaluate re rid links st).violations,
        v.rubric_citations ≠ []) ∧
      (∀ s ∈ (ReasoningEvaluator.evaluate re rid links st).successes,
        s.rubric_citations ≠ [])) ∧
    (∀ ev : StructureEvaluation,
      (∀ v ∈ ev.violations, v.rubric_citations ≠ []) →
      (∀ s ∈ ev.successes, s.rubric_citations ≠ []) →
      ∀ item ∈ (FeedbackComposer.compose_structure_feedback ev).items,
        item.rubric ≠ [] ∨
        item = FeedbackItem.mk "success"
          "Your presentation structure was well-organized." [] []) ∧
    (∀ ev : StructureEvaluation, ev.violations = [] → ev.successes = [] →
      (FeedbackComposer.compose_structure_feedback ev).items.map (·.rubric) =
        [[]]) :=
  ⟨structure_eval_citations, reasoning_eval_citations,
   compose_structure_items, compose_structure_synthetic⟩

/-- Witness for the amended C7: the reasoning clause at a concrete missed
link's violation, and the composer clause at the empty evaluation and its
synthetic item. -/
theorem C7_rubric_citations_witness :
    ((Violation.mk "Missing clinical reasoning: links finding to diagnosis"
        ["rubric://r1##l1"] [] Severity.major).rubric_citations ≠ []) ∧
    ((FeedbackItem.mk "success"
        "Your presentation structure was well-organized." [] []).rubric ≠ [] ∨
      FeedbackItem.mk "success"
          "Your presentation structure was well-organized." [] [] =
        FeedbackItem.mk "success"
          "Your presentation structure was well-organized." [] []) :=
  ⟨(C7_rubric_citations.2.1 pyRegexEngine "r1" [c7_link] c3_transcript).1
      (Violation.mk "Missing clinical reasoning: links finding to diagnosis"
        ["rubric://r1##l1"] [] Severity.major) (by decide),
   C7_rubric_citations.2.2.1 c7_empty_eval (by decide) (by decide)
     (FeedbackItem.mk "success"
       "Your presentation structure was well-organized." [] []) (by decide)⟩

/-- The section-closing block appends the section and its label together,
preserving the segmenter's alignment invariant. -/
theorem TranscriptSegmenter.closeCurrent_inv (s : TranscriptSegmenter.SegState)
    (h : s.detected_order = s.sections.map (·.label)) :
    (TranscriptSegmenter.closeCurrent s).detected_order =
      (TranscriptSegmenter.closeCurrent s).sections.map (·.label) := by
  unfold TranscriptSegmenter.closeCurrent
  split
  · simp [h]
  · exact h

/-- Each segmentation step preserves the alignment invariant. -/
theorem TranscriptSegmenter.segStep_inv (s : TranscriptSegmenter.SegState)
    (u : Utterance) (h : s.detected_order = s.sections.map (·.label)) :
    (TranscriptSegmenter.segStep s u).detected_order =
      (TranscriptSegmenter.segStep s u).sections.map (·.label) := by
  unfold TranscriptSegmenter.segStep
  split
  · split
    · split
      · exact TranscriptSegmenter.closeCurrent_inv s h
      · split
        · exact h
        · exact h
    · split
      · exact h
      · exact h
  · split
    · exact h
    · exact h

/-- The utterance fold preserves the alignment invariant. -/
theorem TranscriptSegmenter.foldl_segStep_inv :
    ∀ (utts : List Utterance) (s : TranscriptSegmenter.SegState),
      s.detected_order = s.sections.map (·.label) →
      (utts.foldl TranscriptSegmenter.segStep s).detected_order =
        (utts.foldl TranscriptSegmenter.segStep s).sections.map (·.label)
  | [], _, h => h
  | u :: us, s, h =>
    TranscriptSegmenter.foldl_segStep_inv us (TranscriptSegmenter.segStep s u)
      (TranscriptSegmenter.segStep_inv s u h)

/-- The segmenter's output satisfies
`detected_order = sections.map label`. -/
theorem TranscriptSegmenter.segment_detected_eq (utterances : List Utterance)
    (transcript_id : String) :
    (TranscriptSegmenter.segment utterances transcript_id).detected_order =
      (TranscriptSegmenter.segment utterances transcript_id).sections.map
        (·.label) := by
  unfold TranscriptSegmenter.segment
  exact TranscriptSegmenter.closeCurrent_inv _
    (TranscriptSegmenter.foldl_segStep_inv utterances _ rfl)

/-- Claim C8: for every utterance list, `detected_order` has the same
length as the sections list and its `i`-th element is the `i`-th section's
label; and a section label that recurs non-contiguously (here
HPI → ROS → HPI) appears once in `detected_order` per (re)opening rather
than being merged. -/
theorem C8_segment_detected_order :
    (∀ (utts : List Utterance) (tid : String),
      (TranscriptSegmenter.segment utts tid).detected_order.length =
        (TranscriptSegmenter.segment utts tid).sections.length) ∧
    (∀ (utts : List Utterance) (tid : String) (i : Nat)
      (h1 : i < (TranscriptSegmenter.segment utts tid).detected_order.length)
      (h2 : i < (TranscriptSegmenter.segment utts tid).sections.length),
      (TranscriptSegmenter.segment utts tid).detected_order[i] =
        ((TranscriptSegmenter.segment utts tid).sections[i]).label) ∧
    (TranscriptSegmenter.segment [c8_u1, c8_u2, c8_u3] "t8").detected_order =
      ["HPI", "ROS", "HPI"] := by
  refine ⟨?_, ?_, ?_⟩
  · intro utts tid
    rw [TranscriptSegmenter.segment_detected_eq]
    simp
  · intro utts tid i h1 h2
    have hm := TranscriptSegmenter.segment_detected_eq utts tid
    simp only [hm, List.getElem_map]
  · decide

/-- Witness for C8: the pointwise clause applied at the concrete reopening
transcript and index 0. -/
theorem C8_segment_detected_order_witness :
    (TranscriptSegmenter.segment [c8_u1, c8_u2, c8_u3] "t8").detected_order.get
        ⟨0, by decide⟩ =
      ((TranscriptSegmenter.segment [c8_u1, c8_u2, c8_u3] "t8").sections.get
        ⟨0, by decide⟩).label :=
  C8_segment_detected_order.2.1 [c8_u1, c8_u2, c8_u3] "t8" 0 (by decide) (by decide)

/-- `lcsFront` of anything against the empty list is 0. -/
theorem lcsFront_nil_right : ∀ X : List String, lcsFront X [] = 0 := by
  intro X
  cases X <;> simp [lcsFront]

/-- The DP table value over prefixes equals the structural recursion on the
reversed prefixes. -/
theorem lcsDp_eq_front (s1 s2 : List String) :
    ∀ (n i j : Nat), i + j ≤ n → i ≤ s1.length → j ≤ s2.length →
      lcsDp s1 s2 i j = lcsFront ((s1.take i).reverse) ((s2.take j).reverse) := by
  intro n
  induction n with
  | zero =>
    intro i j hij hi hj
    have hi0 : i = 0 := by omega
    have hj0 : j = 0 := by omega
    subst hi0
    subst hj0
    simp [lcsDp, lcsFront]
  | succ n ih =>
    intro i j hij hi hj
    match i, j with
    | 0, j => simp [lcsDp, lcsFront]
    | i+1, 0 => simp [lcsDp, lcsFront_nil_right]
    | i+1, j+1 =>
      have hi1 : i < s1.length := by omega
      have hj1 : j < s2.length := by omega
      have ha : s1.get? i = some (s1.get ⟨i, hi1⟩) := List.get?_eq_get hi1
      have hb : s2.get? j = some (s2.get ⟨j, hj1⟩) := List.get?_eq_get hj1
      have ht1 : (s1.take (i+1)).reverse = s1.get ⟨i, hi1⟩ :: (s1.take i).reverse := by
        rw [List.take_succ, List.getElem?_eq_getElem hi1]
        simp
      have ht2 : (s2.take (j+1)).reverse = s2.get ⟨j, hj1⟩ :: (s2.take j).reverse := by
        rw [List.take_succ, List.getElem?_eq_getElem hj1]
        simp
      rw [lcsDp, ha, hb, ht1, ht2, lcsFront]
      by_cases hab : s1.get ⟨i, hi1⟩ = s2.get ⟨j, hj1⟩
      · simp only [hab, Option.some.injEq, if_pos rfl, if_true]
        rw [ih i j (by omega) (by omega) (by omega)]
      · have hne : ¬ (some (s1.get ⟨i, hi1⟩) = some (s2.get ⟨j, hj1⟩)) := by
          simp only [Option.some.injEq]
          exact hab
        rw [if_neg hne, if_neg hab]
        rw [ih i (j+1) (by omega) (by omega) (by omega)]
        rw [ih (i+1) j (by omega) (by omega) (by omega)]
        rw [ht1, ht2]

/-- `longest_common_subsequence` through the structural reformulation. -/
theorem lcs_eq_front (A B : List String) :
    longest_common_subsequence A B = lcsFront A.reverse B.reverse := by
  unfold longest_common_subsequence
  rw [lcsDp_eq_front A B (A.length + B.length) A.length B.length le_rfl le_rfl le_rfl]
  rw [List.take_length, List.take_length]

/-- `lcsFront` is symmetric. -/
theorem lcsFront_comm : ∀ (n : Nat) (l1 l2 : List String),
    l1.length + l2.length ≤ n → lcsFront l1 l2 = lcsFront l2 l1 := by
  intro n
  induction n with
  | zero =>
    intro l1 l2 h
    have h1 : l1 = [] := by
      cases l1
      · rfl
      · simp at h
    have h2 : l2 = [] := by
      cases l2
      · rfl
      · simp at h
    subst h1
    subst h2
    rfl
  | succ n ih =>
    intro l1 l2 h
    match l1, l2 with
    | [], l2 => simp [lcsFront, lcsFront_nil_right]
    | l1 :: t1, [] => simp [lcsFront, lcsFront_nil_right]
    | a :: as, b :: bs =>
      simp only [List.length_cons] at h
      rw [lcsFront, lcsFront]
      by_cases hab : a = b
      · subst hab
        rw [if_pos rfl, if_pos rfl, ih as bs (by omega)]
      · have hba : ¬ b = a := fun hh => hab hh.symm
        rw [if_neg hab, if_neg hba]
        rw [ih as (b :: bs) (by simp; omega), ih (a :: as) bs (by simp; omega)]
        exact Nat.max_comm _ _

/-- `lcsFront` of a list against itself is its length. -/
theorem lcsFront_self : ∀ l : List String, lcsFront l l = l.length := by
  intro l
  induction l with
  | nil => simp [lcsFront]
  | cons a as ih =>
    rw [lcsFront, if_pos rfl, ih]
    rfl

/-- Claim C9: `longest_common_subsequence` is symmetric and its value on a
list against itself is the list's length; `lcs_score` of anything against an
empty expected order is 1, and of an empty detected order against a
non-empty expected order is 0. -/
theorem C9_lcs_algebra :
    (∀ A B : List String,
      longest_common_subsequence A B = longest_common_subsequence B A) ∧
    (∀ A : List String, longest_common_subsequence A A = A.length) ∧
    (∀ detected : List String, lcs_score detected [] = 1) ∧
    (∀ expected : List String, expected ≠ [] → lcs_score [] expected = 0) := by
  refine ⟨?_, ?_, ?_, ?_⟩
  · intro A B
    rw [lcs_eq_front, lcs_eq_front]
    exact lcsFront_comm (A.reverse.length + B.reverse.length) _ _ le_rfl
  · intro A
    rw [lcs_eq_front, lcsFront_self, List.length_reverse]
  · intro detected
    simp [lcs_score]
  · intro expected he
    unfold lcs_score
    rw [if_neg he]
    have h0 : longest_common_subsequence [] expected = 0 := by
      unfold longest_common_subsequence
      simp [lcsDp]
    rw [h0]
    simp

/-- Witness for C9: the empty-detected clause at a concrete non-empty
expected order. -/
theorem C9_lcs_algebra_witness : lcs_score [] ["CC"] = 0 :=
  C9_lcs_algebra.2.2.2 ["CC"] (by decide)

/-- Counterexample to claim C6 as stated: on the inputs
`seq1 = [A, B]`, `seq2 = [B, A]` the final DP cell is a non-matching tie
(`dp[1][2] = dp[2][1] = 1`); the source moves left there and recovers `[B]`,
whereas the claimed move-up tie-breaking (the spec-modelled
`get_lcs_elements_spec_tie`) would recover `[A]`. -/
theorem C6_counterexample :
    get_lcs_elements ["A", "B"] ["B", "A"] = ["B"] ∧
    get_lcs_elements_spec_tie ["A", "B"] ["B", "A"] = ["A"] := by
  constructor
  · simp [get_lcs_elements, lcsBacktrack, lcsDp]
  · simp [get_lcs_elements_spec_tie, lcsBacktrackSpecTie, lcsDp]

/-- Claim C6, amended: in the element-recovery backtracking pass, whenever
the two neighbors `dp[i-1][j]` and `dp[i][j-1]` are equal at a non-matching
cell, the algorithm moves left — it decrements the index into the second
sequence, favoring matches from the first sequence's earlier prefix — and
the recovered subsequence is a deterministic function of the two input
sequences (the recovery is a pure function). -/
theorem C6_backtrack_tie_moves_left (seq1 seq2 : List String) (i j : Nat)
    (a b : String) (h1 : seq1.get? i = some a) (h2 : seq2.get? j = some b)
    (hne : a ≠ b)
    (htie : lcsDp seq1 seq2 i (j + 1) = lcsDp seq1 seq2 (i + 1) j) :
    lcsBacktrack seq1 seq2 (i + 1) (j + 1) = lcsBacktrack seq1 seq2 (i + 1) j := by
  rw [lcsBacktrack, h1, h2]
  simp [hne, htie]

/-- Witness for the amended C6 at the counterexample's tie cell. -/
theorem C6_backtrack_tie_moves_left_witness :
    lcsBacktrack ["A", "B"] ["B", "A"] 2 2 = lcsBacktrack ["A", "B"] ["B", "A"] 2 1 :=
  C6_backtrack_tie_moves_left ["A", "B"] ["B", "A"] 1 1 "B" "A" rfl rfl
    (by decide) (by simp [lcsDp])
